import Mathlib

/-!
Shallow embedding of the "bring anything to life" application core:
`src/services/gemini.ts` (prompt composition, generation call post-processing)
and `src/App.tsx` (history store, generation orchestration, import), plus the
export handler of `src/components/LivePreview.tsx`.

Modelling conventions:
* JavaScript strings are Lean `String`; string helpers that JS regexes and
  methods perform are re-implemented on the character list (`String.data`) so
  that every definition reduces in the kernel.
* JS truthiness of an optional string value (`undefined`, `""` falsy) is
  `optTruthy`; `a || b` on such a value is `jsOrElse`.
* `Date` values are modelled as `Nat` milliseconds; JSON-serialising a date
  and `new Date(string)` parsing are `serializeTs` / `parseTs`, which are
  mutually inverse exactly as ISO round-trips are.
* The JSON text layer of export / import / persistence is abstracted to the
  structured record (`PortableDoc`): `JSON.stringify` then `JSON.parse` is the
  identity on the record, and a parse failure or non-object input is the
  `ImportRaw.parseError` case.
* Nondeterministic environment inputs (the remote model response, per-URL
  fetch outcomes, `crypto.randomUUID()`, `Date.now()`) are explicit parameters.
-/

namespace BringToLife

/-- UI locale, `'en' | 'ar'` in the source. -/
inductive Lang where
  | en
  | ar
deriving DecidableEq, Repr

/-- `Creation` record (`src/components/CreationHistory.tsx` shape, as used by
`App.tsx`): `id`, `name`, `html`, optional `originalImage` data URL, and a
`timestamp` date (modelled as `Nat` milliseconds). -/
structure Creation where
  id : String
  name : String
  html : String
  originalImage : Option String
  timestamp : Nat
deriving DecidableEq, Repr

/-- JS truthiness of a possibly-absent string: `undefined` and `""` are falsy. -/
def optTruthy : Option String → Bool
  | none => false
  | some s => s != ""

/-- JS `a || b` where `a` is a possibly-absent string and `b` the fallback. -/
def jsOrElse (a : Option String) (b : String) : String :=
  match a with
  | none => b
  | some s => if s = "" then b else s

/-- Characters matched by the JS regex class `\s` (ASCII fragment). -/
def isJsWs (c : Char) : Bool :=
  c = ' ' || c = '\t' || c = '\n' || c = '\r'

/-- Drop the leading run of `\s` characters (the `\s*` tail of the fence
regexes in `bringToLife`). -/
def dropLeadingWs (s : String) : String :=
  ⟨s.data.dropWhile isJsWs⟩

/-- `hay` starts with `pre` (kernel-reducible form of `String.startsWith`). -/
def strStarts (hay pre : String) : Bool :=
  pre.data.isPrefixOf hay.data

/-- `hay` ends with `suf` (kernel-reducible form of `String.endsWith`). -/
def strEnds (hay suf : String) : Bool :=
  suf.data.isSuffixOf hay.data

/-- Drop the first `n` characters. -/
def strDrop (s : String) (n : Nat) : String :=
  ⟨s.data.drop n⟩

/-- Drop the last `n` characters. -/
def strDropRight (s : String) (n : Nat) : String :=
  ⟨s.data.take (s.data.length - n)⟩

/-- JS `String.prototype.trim`: strip leading and trailing whitespace. -/
def jsTrim (s : String) : String :=
  ⟨((s.data.dropWhile isJsWs).reverse.dropWhile isJsWs).reverse⟩

/-- Splitting scan for JS `split(sep)` with a one-character separator:
every occurrence separates, adjacent separators yield empty fields. -/
def jsSplitAux (sep : Char) : List Char → List Char → List String
  | [], acc => [⟨acc.reverse⟩]
  | c :: rest, acc =>
      if c = sep then (⟨acc.reverse⟩ : String) :: jsSplitAux sep rest []
      else jsSplitAux sep rest (c :: acc)

/-- JS `s.split(sep)` for a one-character separator. -/
def jsSplit (s : String) (sep : Char) : List String :=
  jsSplitAux sep s.data []

/-- Auxiliary scan: does `needle` occur as a contiguous run in the list? -/
def listContainsSub (needle : List Char) : List Char → Bool
  | [] => needle.isEmpty
  | c :: rest => needle.isPrefixOf (c :: rest) || listContainsSub needle rest

/-- `needle` occurs as a substring of `hay`. -/
def strContains (hay needle : String) : Bool :=
  listContainsSub needle.data hay.data

/-! ### `src/services/gemini.ts` -/

/-- The fixed file-analysis directive of `bringToLife` (the truthy branch of
the inner ternary on `fileBase64`). -/
def fileAnalysisDirective : String :=
  "Analyze this image/document. Detect what functionality is implied. If it is a real-world object (like a desk), gamify it. If it implies a technical tool, build a simulation. Build a fully interactive web app. IMPORTANT: Do NOT use external image URLs. Recreate the visuals using CSS, SVGs, or Emojis."

/-- The fixed demo-request instruction of `bringToLife` (the falsy branch of
the inner ternary on `fileBase64`). -/
def demoRequestInstruction : String :=
  "Create a demo app that shows off your capabilities."

/-- The locale-context clause appended to every composed prompt. -/
def contextClause (lang : Lang) : String :=
  "\n\nCONTEXT: The user is currently browsing the interface in "
    ++ (if lang = Lang.ar then "Arabic (RTL)" else "English (LTR)")
    ++ ". Adapt the generated application accordingly."

/-- Prompt composition of `bringToLife` (gemini.ts lines 48-62), kept branch
for branch: `let finalPrompt = prompt;` then
`if (fileBase64) finalPrompt = fileBase64 ? <analysis> : <demo>;` then the
labelled user-request append guarded by `prompt && prompt.trim().length > 0`,
then the locale-context clause. -/
def bringToLifePrompt (prompt : String) (fileBase64 : Option String) (lang : Lang) : String :=
  let finalPrompt := prompt
  let finalPrompt :=
    if optTruthy fileBase64 then
      (if optTruthy fileBase64 then fileAnalysisDirective else demoRequestInstruction)
    else finalPrompt
  let finalPrompt :=
    if prompt != "" && 0 < (jsTrim prompt).length then
      finalPrompt ++ "\n\nUSER REQUEST: " ++ prompt
    else finalPrompt
  finalPrompt ++ contextClause lang

/-- Placeholder substituted for an empty model response:
`response.text || "<!-- Failed to generate content -->"`. -/
def failedPlaceholder : String :=
  "<!-- Failed to generate content -->"

/-- The defensive fence cleanup of `bringToLife` (gemini.ts line 90):
`text.replace(/^```html\s*/, '').replace(/^```\s*/, '').replace(/```$/, '')`.
Each `replace` with a non-global anchored regex rewrites at most the one
anchored occurrence. -/
def stripFences (t : String) : String :=
  let t1 := if strStarts t "```html" then dropLeadingWs (strDrop t 7) else t
  let t2 := if strStarts t1 "```" then dropLeadingWs (strDrop t1 3) else t1
  if strEnds t2 "```" then strDropRight t2 3 else t2

/-- Outcome of the remote `ai.models.generateContent` call: either a response
whose `.text` is the given possibly-absent string, or a thrown
transport/model error. -/
inductive ModelResponse where
  | ok (text : Option String)
  | threw
deriving DecidableEq, Repr

/-- Generation failure propagated to the caller (`throw error` in the catch
block of `bringToLife`). -/
inductive GenError where
  | generationError
deriving DecidableEq, Repr

/-- `bringToLife` (gemini.ts lines 44-97) given the remote call's outcome:
on a response, substitutes the placeholder for an empty `.text`, strips
fences and returns the document string; on a thrown error, re-throws. -/
def bringToLife (prompt : String) (fileBase64 : Option String) (mimeType : Option String)
    (lang : Lang) (resp : ModelResponse) : Except GenError String :=
  match resp with
  | ModelResponse.threw => Except.error GenError.generationError
  | ModelResponse.ok t =>
      let composed := bringToLifePrompt prompt fileBase64 lang
      let text := jsOrElse t failedPlaceholder
      -- `composed` and `mimeType` only shape the outgoing request parts;
      -- the returned document is the cleaned response text
      let _ := composed
      let _ := mimeType
      Except.ok (stripFences text)

/-! ### `src/App.tsx` — state, orchestration, store -/

/-- Orchestrator/store state of `App`: `activeCreation`, `isGenerating`,
`history` (most-recent-first list). -/
structure AppState where
  activeCreation : Option Creation
  isGenerating : Bool
  history : List Creation
deriving DecidableEq, Repr

/-- Which user-facing `alert` fired (the localized message text is keyed by
`lang` in the source; only its identity matters here). -/
inductive Notice where
  | generateFailed
  | importInvalid
  | importFailed
deriving DecidableEq, Repr

/-- A user file after `fileToBase64` succeeded: its name, base64 payload and
(lower-cased) media type. -/
structure FileInfo where
  name : String
  base64 : String
  mimeType : String
deriving DecidableEq, Repr

/-- Take the first `n` characters (JS `substring(0, n)`). -/
def strTake (s : String) (n : Nat) : String :=
  ⟨s.data.take n⟩

/-- The "smart name" computation of `handleGenerate` (App.tsx lines 184-193):
file name if a file was given, else first four words of the prompt with `...`
markers and a 30-character cap, else a locale default. -/
def creationNameOf (lang : Lang) (file : Option FileInfo) (promptText : String) : String :=
  match file with
  | some f => f.name
  | none =>
      if promptText != "" then
        let words := jsSplit promptText ' '
        let creationName :=
          String.intercalate " " (words.take 4) ++ (if 4 < words.length then "..." else "")
        if 30 < creationName.length then strTake creationName 27 ++ "..." else creationName
      else (if lang = Lang.ar then "مشروع جديد" else "New Creation")

/-- The data URL stored as `originalImage`:
`data:<mimeType>;base64,<imageBase64>`. -/
def dataUrl (mimeType base64 : String) : String :=
  "data:" ++ mimeType ++ ";base64," ++ base64

/-- `handleGenerate` (App.tsx lines 167-213) after a successful file encode,
given the remote call's outcome. `freshId` is the `crypto.randomUUID()` drawn
for this attempt and `now` the `new Date()` instant. Returns the resulting
state (activeCreation, isGenerating, history) and the alert fired, if any.
`setActiveCreation(null)` at entry and `setIsGenerating` in `finally` are
reflected in the resulting state. -/
def handleGenerate (lang : Lang) (freshId : String) (now : Nat)
    (promptText : String) (file : Option FileInfo) (resp : ModelResponse)
    (st : AppState) : AppState × Option Notice :=
  let imageBase64 : Option String := file.map FileInfo.base64
  let mimeType : Option String := file.map FileInfo.mimeType
  match bringToLife promptText imageBase64 mimeType lang resp with
  | Except.error _ =>
      ({ activeCreation := none, isGenerating := false, history := st.history },
        some Notice.generateFailed)
  | Except.ok html =>
      if html != "" then
        let newCreation : Creation :=
          { id := freshId
            name := creationNameOf lang file promptText
            html := html
            originalImage :=
              match imageBase64, mimeType with
              | some b, some m => if !b.isEmpty && !m.isEmpty then some (dataUrl m b) else none
              | _, _ => none
            timestamp := now }
        ({ activeCreation := some newCreation, isGenerating := false,
           history := newCreation :: st.history }, none)
      else
        ({ activeCreation := none, isGenerating := false, history := st.history }, none)

/-- The portable JSON record of a Creation, as exported and as accepted by
import. Every field is optional in a parsed object. The date is carried as a
non-empty ISO string in the JSON text; since `new Date` inverts that
serialization exactly, the field is modelled as the instant itself, and the
ISO string's truthiness coincides with the field's presence. -/
structure PortableDoc where
  id : Option String
  name : Option String
  html : Option String
  originalImage : Option String
  timestamp : Option Nat
deriving DecidableEq, Repr

/-- Outcome of reading and `JSON.parse`-ing the picked file: a parsed object,
or the throw path (read produced non-JSON, or a non-object value whose
property access threw). -/
inductive ImportRaw where
  | parseError
  | obj (d : PortableDoc)
deriving DecidableEq, Repr

/-- `handleImportFile`'s `reader.onload` body (App.tsx lines 233-263):
validates `parsed.html && parsed.name` (JS truthiness), backfills
`timestamp` and `id` (`parsed.x || fallback`), inserts into history unless
the id already exists, and activates the imported creation; on invalid
shape or a parse throw it alerts and leaves the state unchanged. -/
def handleImportFile (freshId : String) (now : Nat) (raw : ImportRaw)
    (st : AppState) : AppState × Option Notice :=
  match raw with
  | ImportRaw.parseError => (st, some Notice.importFailed)
  | ImportRaw.obj d =>
      if optTruthy d.html && optTruthy d.name then
        let importedCreation : Creation :=
          { id := jsOrElse d.id freshId
            name := d.name.getD ""
            html := d.html.getD ""
            originalImage := d.originalImage
            timestamp := d.timestamp.getD now }
        let dup := st.history.any (fun c => c.id == importedCreation.id)
        ({ activeCreation := some importedCreation
           isGenerating := st.isGenerating
           history := if dup then st.history else importedCreation :: st.history }, none)
      else (st, some Notice.importInvalid)

/-- `handleExport` of `src/components/LivePreview.tsx` (lines 151-163):
`JSON.stringify(creation, null, 2)` — the portable record carrying every
field of the creation. -/
def handleExport (c : Creation) : PortableDoc :=
  { id := some c.id
    name := some c.name
    html := some c.html
    originalImage := c.originalImage
    timestamp := some c.timestamp }

/-- The persisted archive read on mount: absent (`getItem` returned null or
an empty string), corrupt (`JSON.parse` threw), or a parsed item list (the
per-item `new Date(item.timestamp)` reconstruction is folded into the
items). -/
inductive SavedState where
  | absent
  | corrupt
  | parsed (items : List Creation)
deriving DecidableEq, Repr

/-- Per-URL outcome of one example fetch inside `Promise.all`: a fetched and
reshaped example record (`{...data, timestamp, id}` backfill folded in), a
non-success HTTP response (`!res.ok`, mapped to null), or a rejection
(network error, or `res.json()` threw). -/
inductive FetchOutcome where
  | ok (c : Creation)
  | notOk
  | threw
deriving DecidableEq, Repr

/-- `initHistory` (App.tsx lines 89-133): the history after the mount effect,
paired with whether the example-fetch path ran. Persisted state that parses
to a non-empty list wins; otherwise examples are fetched: if any per-URL
fetch rejected, `Promise.all` rejects, the catch logs and history stays at
its initial `[]`; otherwise the nulls are filtered out and the rest seeded. -/
def initHistory (saved : SavedState) (fetches : List FetchOutcome) :
    List Creation × Bool :=
  let loadedHistory : List Creation :=
    match saved with
    | SavedState.parsed items => items
    | _ => []
  if 0 < loadedHistory.length then
    (loadedHistory, false)
  else
    if fetches.any (fun f =>
        match f with
        | FetchOutcome.threw => true
        | _ => false) then
      ([], true)
    else
      (fetches.filterMap (fun f =>
        match f with
        | FetchOutcome.ok c => some c
        | _ => none), true)

/-- The history persistence effect (App.tsx lines 139-147): writes the
serialized collection only when `history.length > 0`; a quota/serialization
throw is swallowed, leaving the stored archive as it was. The JSON text is
abstracted to the item list it encodes. -/
def persistHistoryEffect (history : List Creation) (quotaFails : Bool)
    (store : Option (List Creation)) : Option (List Creation) :=
  if 0 < history.length then
    (if quotaFails then store else some history)
  else store

/-- Ids are pairwise distinct in the collection. -/
def idsNodup (l : List Creation) : Prop :=
  (l.map Creation.id).Nodup

instance (l : List Creation) : Decidable (idsNodup l) := by
  unfold idsNodup; infer_instance

/-- One insertion-path invocation: a generation attempt or an import. -/
inductive InsertOp where
  | gen (lang : Lang) (freshId : String) (now : Nat)
      (promptText : String) (file : Option FileInfo) (resp : ModelResponse)
  | imp (freshId : String) (now : Nat) (raw : ImportRaw)

/-- Run one insertion-path invocation on the state (alert discarded). -/
def applyInsertOp (st : AppState) : InsertOp → AppState
  | InsertOp.gen lang freshId now promptText file resp =>
      (handleGenerate lang freshId now promptText file resp st).1
  | InsertOp.imp freshId now raw =>
      (handleImportFile freshId now raw st).1

/-- Run a sequence of insertion-path invocations. -/
def applyInsertOps (st : AppState) : List InsertOp → AppState
  | [] => st
  | op :: rest => applyInsertOps (applyInsertOp st op) rest

/-! ## Theorems -/

/-- Claim C1 is false on the code: when the remote model returns an empty
result (`response.text` is `""`), `bringToLife` does not fail — it returns
the non-empty placeholder document `<!-- Failed to generate content -->` to
the orchestrator, whose `if (html)` check passes, so a Creation holding the
placeholder IS minted, stored in the history, and activated. Shown at the
concrete attempt `prompt = "x"`, no file, locale `en`, on the empty state. -/
theorem bringToLife_empty_result_mints_placeholder_creation :
    bringToLife "x" none none Lang.en (ModelResponse.ok (some "")) =
      Except.ok failedPlaceholder ∧
    handleGenerate Lang.en "id0" 5 "x" none (ModelResponse.ok (some ""))
        ⟨none, false, []⟩ =
      (⟨some ⟨"id0", "x", failedPlaceholder, none, 5⟩,
        false, [⟨"id0", "x", failedPlaceholder, none, 5⟩]⟩, none) := by
  exact ⟨rfl, rfl⟩

/-- Claim C1, amended: on an empty or absent model result `bringToLife`
succeeds with the fixed placeholder document instead of failing, and the
orchestrator then mints and stores a Creation whose document is that
placeholder; only a thrown transport/model error is propagated as a
generation failure. -/
theorem bringToLife_empty_result_placeholder (prompt : String)
    (fb mt : Option String) (lang : Lang) (st : AppState) (freshId : String)
    (now : Nat) (file : Option FileInfo) :
    bringToLife prompt fb mt lang (ModelResponse.ok (some "")) =
      Except.ok failedPlaceholder ∧
    bringToLife prompt fb mt lang (ModelResponse.ok none) =
      Except.ok failedPlaceholder ∧
    bringToLife prompt fb mt lang ModelResponse.threw =
      Except.error GenError.generationError ∧
    ∃ c, (handleGenerate lang freshId now prompt file (ModelResponse.ok (some "")) st).1.history
          = c :: st.history ∧
        c.html = failedPlaceholder ∧
        (handleGenerate lang freshId now prompt file (ModelResponse.ok (some "")) st).1.activeCreation
          = some c := by
  refine ⟨rfl, rfl, rfl, ⟨_, rfl, rfl, rfl⟩⟩

/-- Claim C2 is right and the code is wrong: the fixed demo-request
instruction `"Create a demo app that shows off your capabilities."` sits in
the dead branch of `finalPrompt = fileBase64 ? ... : ...` inside
`if (fileBase64)`, so with no file and empty free text the composed prompt
is only the locale-context clause and never contains the demo-request
instruction (the spec's intended substitution never happens). -/
theorem composedPrompt_missing_demo_instruction :
    bringToLifePrompt "" none Lang.en = contextClause Lang.en ∧
    strContains (bringToLifePrompt "" none Lang.en) demoRequestInstruction = false ∧
    demoRequestInstruction ≠ "" := by
  refine ⟨rfl, by decide, by decide⟩

/-- Claim C9: when the remote call throws, `handleGenerate` leaves the
history exactly as it was, clears the active creation and the generating
flag (the Idle state), and fires the failure alert. -/
theorem generate_failure_returns_idle_store_unchanged (lang : Lang)
    (freshId : String) (now : Nat) (promptText : String)
    (file : Option FileInfo) (st : AppState) :
    handleGenerate lang freshId now promptText file ModelResponse.threw st =
      ({ activeCreation := none, isGenerating := false, history := st.history },
        some Notice.generateFailed) := rfl

/-- Claim C10: the persistence effect writes only for a non-empty collection:
an empty collection always leaves the stored archive untouched, and whenever
the stored archive changes at all, the collection was non-empty and the
archive now holds exactly that collection. -/
theorem persist_only_runs_on_nonempty (history : List Creation)
    (quotaFails : Bool) (store : Option (List Creation)) :
    persistHistoryEffect [] quotaFails store = store ∧
    (persistHistoryEffect history quotaFails store ≠ store →
      history ≠ [] ∧ persistHistoryEffect history quotaFails store = some history) := by
  constructor
  · rfl
  · intro hch
    unfold persistHistoryEffect at *
    by_cases hlen : 0 < history.length
    · refine ⟨?_, ?_⟩
      · exact List.length_pos.mp hlen
      · cases quotaFails with
        | true => simp [hlen] at hch
        | false => simp [hlen]
    · simp [hlen] at hch

/-- Witness for C10 at a concrete write: persisting the singleton collection
into an empty archive stores it, and the empty collection leaves that
archive alone. -/
theorem persist_only_runs_on_nonempty_witness :
    persistHistoryEffect [] false (some [⟨"a", "n", "<h>", none, 0⟩]) =
      some [⟨"a", "n", "<h>", none, 0⟩] ∧
    ([⟨"a", "n", "<h>", none, 0⟩] : List Creation) ≠ [] ∧
    persistHistoryEffect [⟨"a", "n", "<h>", none, 0⟩] false none =
      some [⟨"a", "n", "<h>", none, 0⟩] :=
  ⟨(persist_only_runs_on_nonempty [] false (some [⟨"a", "n", "<h>", none, 0⟩])).1,
    (persist_only_runs_on_nonempty [⟨"a", "n", "<h>", none, 0⟩] false none).2
      (by decide)⟩

/-- Claim C3 is false on the code: persisted state that exists and parses to
the empty collection does NOT take precedence — `loadedHistory.length > 0`
fails and the example-fetch path runs, seeding the fetched example. -/
theorem empty_persisted_state_still_fetches_examples :
    initHistory (SavedState.parsed []) [FetchOutcome.ok ⟨"e1", "chess", "<h>", none, 0⟩] =
      ([⟨"e1", "chess", "<h>", none, 0⟩], true) := rfl

/-- Claim C3, amended: whenever persisted state exists and parses to a
NON-empty collection, the store uses exactly that collection and the
example-fetch path never runs; an empty parsed collection falls through to
example seeding. -/
theorem nonempty_persisted_state_skips_examples (items : List Creation)
    (fetches : List FetchOutcome) (h : items ≠ []) :
    initHistory (SavedState.parsed items) fetches = (items, false) := by
  have hl : 0 < items.length := List.length_pos.mpr h
  unfold initHistory
  simp [hl]

/-- Witness for the amended C3 at a concrete persisted singleton: the
persisted item is used and the fetched example is ignored. -/
theorem nonempty_persisted_state_skips_examples_witness :
    ([⟨"a", "n", "<h>", none, 0⟩] : List Creation) ≠ [] ∧
    initHistory (SavedState.parsed [⟨"a", "n", "<h>", none, 0⟩])
        [FetchOutcome.ok ⟨"e1", "chess", "<h2>", none, 0⟩] =
      ([⟨"a", "n", "<h>", none, 0⟩], false) :=
  ⟨by decide,
    nonempty_persisted_state_skips_examples [⟨"a", "n", "<h>", none, 0⟩]
      [FetchOutcome.ok ⟨"e1", "chess", "<h2>", none, 0⟩] (by decide)⟩

/-- Claim C4 is false on the code: a rejected per-URL fetch (network error or
a `res.json()` throw) rejects the whole `Promise.all`, so the seeding of the
remaining examples IS aborted — here the successfully fetched example is
lost and the history stays empty. Only the `!res.ok` failure mode is
isolated per URL. -/
theorem rejected_example_fetch_aborts_whole_seed :
    initHistory SavedState.absent
        [FetchOutcome.ok ⟨"e1", "chess", "<h>", none, 0⟩, FetchOutcome.threw] =
      ([], true) := rfl

/-- Claim C4, amended: during first-run seeding, as long as no per-URL fetch
rejects, each example whose fetch came back as a non-success HTTP response
is omitted on its own and every successfully fetched example is seeded; a
rejected fetch, however, aborts the whole seed. -/
theorem non_ok_example_fetches_isolated (fetches : List FetchOutcome)
    (hnothrew : ∀ f ∈ fetches, f ≠ FetchOutcome.threw) :
    initHistory SavedState.absent fetches =
      (fetches.filterMap (fun f =>
        match f with
        | FetchOutcome.ok c => some c
        | _ => none), true) := by
  have hany : (fetches.any (fun f =>
      match f with
      | FetchOutcome.threw => true
      | _ => false)) = false := by
    rw [List.any_eq_false]
    intro f hf
    cases f with
    | ok c => simp
    | notOk => simp
    | threw => exact absurd rfl (hnothrew _ hf)
  unfold initHistory
  simp [hany]

/-- Witness for the amended C4 at a concrete batch: one non-success response
between two successful fetches omits only itself. -/
theorem non_ok_example_fetches_isolated_witness :
    (∀ f ∈ [FetchOutcome.ok ⟨"e1", "a", "<h1>", none, 0⟩, FetchOutcome.notOk,
            FetchOutcome.ok ⟨"e2", "b", "<h2>", none, 0⟩], f ≠ FetchOutcome.threw) ∧
    initHistory SavedState.absent
        [FetchOutcome.ok ⟨"e1", "a", "<h1>", none, 0⟩, FetchOutcome.notOk,
         FetchOutcome.ok ⟨"e2", "b", "<h2>", none, 0⟩] =
      ([⟨"e1", "a", "<h1>", none, 0⟩, ⟨"e2", "b", "<h2>", none, 0⟩], true) :=
  ⟨by decide,
    non_ok_example_fetches_isolated
      [FetchOutcome.ok ⟨"e1", "a", "<h1>", none, 0⟩, FetchOutcome.notOk,
       FetchOutcome.ok ⟨"e2", "b", "<h2>", none, 0⟩] (by decide)⟩

/-- Claim C7 is false as stated: the validation is JS truthiness, not field
presence — a parsed object whose `html` field IS present but empty
(`some ""`) with a non-empty `name` is rejected with the invalid-format
alert instead of being accepted. -/
theorem import_rejects_present_but_empty_document :
    (⟨none, some "n", some "", none, none⟩ : PortableDoc).html = some "" ∧
    (⟨none, some "n", some "", none, none⟩ : PortableDoc).name = some "n" ∧
    handleImportFile "f1" 9 (ImportRaw.obj ⟨none, some "n", some "", none, none⟩)
        ⟨none, false, []⟩ =
      (⟨none, false, []⟩, some Notice.importInvalid) := ⟨rfl, rfl, rfl⟩

/-- Claim C7, amended: import succeeds exactly when the raw input parses and
both mandatory fields are present AND non-empty (JS truthiness); on success
a missing or empty `id` is backfilled with the freshly generated id and a
missing `timestamp` with the current time; on a falsy mandatory field or a
parse failure, the user-facing alert fires and the state is returned
unchanged. -/
theorem import_succeeds_iff_truthy_mandatory_fields (freshId : String)
    (now : Nat) (d : PortableDoc) (st : AppState) :
    (optTruthy d.html = true → optTruthy d.name = true →
      ∃ c, handleImportFile freshId now (ImportRaw.obj d) st =
          ({ activeCreation := some c
             isGenerating := st.isGenerating
             history := if st.history.any (fun x => x.id == c.id) then st.history
               else c :: st.history }, none) ∧
        c.html = d.html.getD "" ∧
        c.name = d.name.getD "" ∧
        c.id = jsOrElse d.id freshId ∧
        c.timestamp = d.timestamp.getD now ∧
        c.originalImage = d.originalImage) ∧
    ((optTruthy d.html && optTruthy d.name) = false →
      handleImportFile freshId now (ImportRaw.obj d) st = (st, some Notice.importInvalid)) ∧
    handleImportFile freshId now ImportRaw.parseError st = (st, some Notice.importFailed) := by
  refine ⟨?_, ?_, rfl⟩
  · intro h1 h2
    simp only [handleImportFile, h1, h2, Bool.and_self, if_true]
    exact ⟨_, rfl, rfl, rfl, rfl, rfl, rfl⟩
  · intro h
    simp only [handleImportFile, h, Bool.false_eq_true, if_false]

/-- Witness for the amended C7: a fully-populated object imports with its own
id and timestamp; an object with a falsy name is rejected unchanged. -/
theorem import_succeeds_iff_truthy_mandatory_fields_witness :
    (optTruthy (⟨some "i", some "n", some "<h>", none, some 3⟩ : PortableDoc).html = true ∧
     optTruthy (⟨some "i", some "n", some "<h>", none, some 3⟩ : PortableDoc).name = true ∧
     ∃ c, handleImportFile "f" 9
            (ImportRaw.obj ⟨some "i", some "n", some "<h>", none, some 3⟩)
            ⟨none, false, []⟩ =
          ({ activeCreation := some c
             isGenerating := false
             history := if ([] : List Creation).any (fun x => x.id == c.id) then []
               else c :: [] }, none) ∧
        c.html = (some "<h>").getD "" ∧
        c.name = (some "n").getD "" ∧
        c.id = jsOrElse (some "i") "f" ∧
        c.timestamp = (some 3).getD 9 ∧
        c.originalImage = none) ∧
    ((optTruthy (⟨some "i", some "", some "<h>", none, none⟩ : PortableDoc).html &&
      optTruthy (⟨some "i", some "", some "<h>", none, none⟩ : PortableDoc).name) = false ∧
     handleImportFile "f" 9 (ImportRaw.obj ⟨some "i", some "", some "<h>", none, none⟩)
        ⟨none, false, []⟩ = (⟨none, false, []⟩, some Notice.importInvalid)) :=
  ⟨⟨by decide, by decide,
      (import_succeeds_iff_truthy_mandatory_fields "f" 9
        ⟨some "i", some "n", some "<h>", none, some 3⟩ ⟨none, false, []⟩).1
        (by decide) (by decide)⟩,
    ⟨by decide,
      (import_succeeds_iff_truthy_mandatory_fields "f" 9
        ⟨some "i", some "", some "<h>", none, none⟩ ⟨none, false, []⟩).2.1
        (by decide)⟩⟩

/-- Claim C8 is false as stated, in two ways: a Creation whose document is
the (present) empty string does not survive the round trip at all — import
rejects its exported form; and a Creation whose id is the (present) empty
string comes back with a freshly backfilled id (`"fresh"`), not the same
id. -/
theorem export_import_roundtrip_counterexample :
    handleImportFile "fresh" 9 (ImportRaw.obj (handleExport ⟨"i1", "n", "", none, 3⟩))
        ⟨none, false, []⟩ =
      (⟨none, false, []⟩, some Notice.importInvalid) ∧
    (handleExport ⟨"i1", "n", "", none, 3⟩).html = some "" ∧
    (handleImportFile "fresh" 9 (ImportRaw.obj (handleExport ⟨"", "n", "<h>", none, 3⟩))
        ⟨none, false, []⟩).1.activeCreation =
      some ⟨"fresh", "n", "<h>", none, 3⟩ := ⟨rfl, rfl, rfl⟩

/-- Claim C8, amended: for every Creation whose document and name are
non-empty, export followed by import yields a Creation with identical
document, name, createdAt and source image, and with the same id when the
id is non-empty (a freshly generated id when it is empty). -/
theorem export_import_roundtrip (c : Creation) (freshId : String) (now : Nat)
    (st : AppState) (hh : c.html ≠ "") (hn : c.name ≠ "") :
    ∃ c2, (handleImportFile freshId now (ImportRaw.obj (handleExport c)) st).1.activeCreation
        = some c2 ∧
      c2.html = c.html ∧ c2.name = c.name ∧ c2.timestamp = c.timestamp ∧
      c2.originalImage = c.originalImage ∧
      (c.id ≠ "" → c2.id = c.id) ∧ (c.id = "" → c2.id = freshId) := by
  have h1 : optTruthy (handleExport c).html = true := by
    simp [optTruthy, handleExport, bne_iff_ne, hh]
  have h2 : optTruthy (handleExport c).name = true := by
    simp [optTruthy, handleExport, bne_iff_ne, hn]
  simp only [handleImportFile, h1, h2, Bool.and_self, if_true]
  refine ⟨_, rfl, rfl, rfl, rfl, rfl, ?_, ?_⟩
  · intro hid
    simp [handleExport, jsOrElse, hid]
  · intro hid
    simp [handleExport, jsOrElse, hid]

/-- Witness for the amended C8 at a concrete Creation: the round trip
reproduces every field, keeping the non-empty id. -/
theorem export_import_roundtrip_witness :
    (("<h>" : String) ≠ "" ∧ ("n" : String) ≠ "") ∧
    (∃ c2, (handleImportFile "f" 9
          (ImportRaw.obj (handleExport ⟨"i", "n", "<h>", none, 3⟩))
          ⟨none, false, []⟩).1.activeCreation = some c2 ∧
      c2.html = (⟨"i", "n", "<h>", none, 3⟩ : Creation).html ∧
      c2.name = (⟨"i", "n", "<h>", none, 3⟩ : Creation).name ∧
      c2.timestamp = (⟨"i", "n", "<h>", none, 3⟩ : Creation).timestamp ∧
      c2.originalImage = (⟨"i", "n", "<h>", none, 3⟩ : Creation).originalImage ∧
      ((⟨"i", "n", "<h>", none, 3⟩ : Creation).id ≠ "" → c2.id = "i") ∧
      ((⟨"i", "n", "<h>", none, 3⟩ : Creation).id = "" → c2.id = "f")) :=
  ⟨⟨by decide, by decide⟩,
    export_import_roundtrip ⟨"i", "n", "<h>", none, 3⟩ "f" 9 ⟨none, false, []⟩
      (by decide) (by decide)⟩

/-- Shared step shape: one insertion-path invocation either leaves the
collection untouched or prepends exactly one Creation. -/
theorem applyInsertOp_step (st : AppState) (op : InsertOp) :
    (applyInsertOp st op).history = st.history ∨
    ∃ c, (applyInsertOp st op).history = c :: st.history := by
  cases op with
  | gen lang freshId now promptText file resp =>
      cases resp with
      | threw => exact Or.inl rfl
      | ok t =>
          simp only [applyInsertOp, handleGenerate, bringToLife]
          split
          · exact Or.inr ⟨_, rfl⟩
          · exact Or.inl rfl
  | imp freshId now raw =>
      cases raw with
      | parseError => exact Or.inl rfl
      | obj d =>
          simp only [applyInsertOp, handleImportFile]
          split
          · split
            · exact Or.inl rfl
            · exact Or.inr ⟨_, rfl⟩
          · exact Or.inl rfl

/-- Shared order lemma: after any sequence of insertion-path invocations,
the earlier collection survives as a suffix, everything new sits in front. -/
theorem applyInsertOps_suffix (ops : List InsertOp) (st : AppState) :
    ∃ l, (applyInsertOps st ops).history = l ++ st.history := by
  induction ops generalizing st with
  | nil => exact ⟨[], rfl⟩
  | cons op rest ih =>
      obtain ⟨l, hl⟩ := ih (applyInsertOp st op)
      rcases applyInsertOp_step st op with h | ⟨c, hc⟩
      · exact ⟨l, by rw [applyInsertOps, hl, h]⟩
      · exact ⟨l ++ [c], by rw [applyInsertOps, hl, hc]; simp⟩

/-- Claim C6: every accepted insert prepends the new Creation (an invocation
either leaves the history as is or conses exactly one Creation onto it), and
over any sequence of generation/import invocations the history stays
most-recent-first: the prior contents keep their order as a suffix behind
everything inserted later. -/
theorem inserts_prepend_keep_most_recent_first (st : AppState) (op : InsertOp)
    (ops : List InsertOp) :
    ((applyInsertOp st op).history = st.history ∨
      ∃ c, (applyInsertOp st op).history = c :: st.history) ∧
    ∃ l, (applyInsertOps st ops).history = l ++ st.history :=
  ⟨applyInsertOp_step st op, applyInsertOps_suffix ops st⟩

/-- Claim C5: inserting a Creation whose id already occurs leaves the
collection exactly unchanged on the import path; consequently id uniqueness
is preserved by every insertion path — unconditionally by import (its
duplicate check), and by a successful generation whose freshly drawn uuid
does not already occur (the freshness `crypto.randomUUID` provides). -/
theorem insert_dedup_preserves_id_uniqueness (st : AppState) (freshId : String)
    (now : Nat) (raw : ImportRaw) (lang : Lang) (promptText : String)
    (file : Option FileInfo) (resp : ModelResponse) (d : PortableDoc) :
    ((∃ c ∈ st.history, c.id = jsOrElse d.id freshId) →
      (handleImportFile freshId now (ImportRaw.obj d) st).1.history = st.history) ∧
    (idsNodup st.history →
      idsNodup (handleImportFile freshId now raw st).1.history) ∧
    (idsNodup st.history → freshId ∉ st.history.map Creation.id →
      idsNodup (handleGenerate lang freshId now promptText file resp st).1.history) := by
  refine ⟨?_, ?_, ?_⟩
  · intro hdup
    have hany : (st.history.any fun c => c.id == jsOrElse d.id freshId) = true := by
      rw [List.any_eq_true]
      obtain ⟨c, hc, hid⟩ := hdup
      exact ⟨c, hc, by simp [hid]⟩
    simp only [handleImportFile]
    split
    · simp [hany]
    · rfl
  · intro hnd
    cases raw with
    | parseError => exact hnd
    | obj d2 =>
        simp only [handleImportFile]
        split
        · split
          · exact hnd
          · next hany =>
              rw [idsNodup, List.map_cons, List.nodup_cons]
              refine ⟨?_, hnd⟩
              intro hmem
              obtain ⟨c, hc, hid⟩ := List.mem_map.mp hmem
              have : (st.history.any fun x => x.id == jsOrElse d2.id freshId) = true := by
                rw [List.any_eq_true]
                exact ⟨c, hc, by simp [hid]⟩
              simp [this] at hany
        · exact hnd
  · intro hnd hfresh
    cases resp with
    | threw => exact hnd
    | ok t =>
        simp only [handleGenerate, bringToLife]
        split
        · rw [idsNodup, List.map_cons, List.nodup_cons]
          exact ⟨hfresh, hnd⟩
        · exact hnd

/-- Witness for C5 at concrete inputs: importing a duplicate id over a
singleton history is a no-op and keeps its ids unique, and a generation with
a fresh uuid keeps them unique too. -/
theorem insert_dedup_preserves_id_uniqueness_witness :
    (∃ c ∈ ([⟨"a", "n", "<h>", none, 0⟩] : List Creation),
        c.id = jsOrElse (some "a") "b") ∧
    (handleImportFile "b" 9
        (ImportRaw.obj ⟨some "a", some "m", some "<h2>", none, none⟩)
        ⟨none, false, [⟨"a", "n", "<h>", none, 0⟩]⟩).1.history =
      [⟨"a", "n", "<h>", none, 0⟩] ∧
    idsNodup (handleImportFile "b" 9
        (ImportRaw.obj ⟨some "a", some "m", some "<h2>", none, none⟩)
        ⟨none, false, [⟨"a", "n", "<h>", none, 0⟩]⟩).1.history ∧
    idsNodup (handleGenerate Lang.en "b" 9 "p" none (ModelResponse.ok (some "<h>"))
        ⟨none, false, [⟨"a", "n", "<h>", none, 0⟩]⟩).1.history := by
  have h := insert_dedup_preserves_id_uniqueness
    ⟨none, false, [⟨"a", "n", "<h>", none, 0⟩]⟩ "b" 9
    (ImportRaw.obj ⟨some "a", some "m", some "<h2>", none, none⟩) Lang.en "p" none
    (ModelResponse.ok (some "<h>")) ⟨some "a", some "m", some "<h2>", none, none⟩
  exact ⟨by decide, h.1 (by decide), h.2.1 (by decide), h.2.2 (by decide) (by decide)⟩

end BringToLife
